import Mathlib

/-!
Verification of the Foody-Fresh restaurant reservation system.

The development shallowly embeds the reservation pipeline:
the Express error middleware (`BACKEND/error/error.js`), the
`sendReservation` controller and the Mongoose `reservationSchema`
(as shown in `PROJECT_EXPLANATION.md`), the reservation form client
(`components/Reservation.jsx`) and the confirmation-view countdown
(`Pages/Success.jsx`).
-/

namespace FoodyFresh

/-! ## HTTP responses and the error boundary (`BACKEND/error/error.js`) -/

/-- The externally visible JSON response of the service: an HTTP status
together with the body shape used everywhere in this codebase,
a `success` flag and a `message` string.  `error.js` returns exactly
these two body keys; the success path of the controller does the same. -/
structure HttpResponse where
  status : Nat
  success : Bool
  message : String
deriving Repr, DecidableEq

/-- A JavaScript error object as seen by `errorMiddleware`.
`message` is the `Error`'s message (a string, possibly empty);
`StatusCode` is the custom field set by `ErrorHandler`, `none` when the
property was never assigned (JavaScript `undefined`); `stack` stands for
every other piece of internal state an `Error` carries (stack trace,
driver diagnostics), which the middleware never reads. -/
structure JsError where
  message : String
  StatusCode : Option Nat
  stack : String
deriving Repr, DecidableEq

/-- The `ErrorHandler` class of `BACKEND/error/error.js`: an `Error`
constructed from a message and a status code. -/
def ErrorHandler (message : String) (code : Nat) : JsError :=
  { message := message, StatusCode := some code, stack := "" }

/-- `errorMiddleware` from `BACKEND/error/error.js`:

`err.message = err.message || "Internal Serve Error!"` and
`err.StatusCode = err.StatusCode || 500` follow JavaScript truthiness:
an empty message falls back to the default string (with the typo as in
the source), and an absent or zero `StatusCode` falls back to `500`.
The response is `res.status(StatusCode).json(success := false, message)`. -/
def errorMiddleware (err : JsError) : HttpResponse :=
  let message := if err.message = "" then "Internal Serve Error!" else err.message
  let statusCode :=
    match err.StatusCode with
    | none => 500
    | some c => if c = 0 then 500 else c
  { status := statusCode, success := false, message := message }

/-! ## The reservation pipeline (`controller/reservation.js`,
`models/reservationSchema.js`, as given in `PROJECT_EXPLANATION.md`) -/

/-- A persisted Reservation record: the six string fields of
`models/reservationSchema.js`. -/
structure Reservation where
  firstName : String
  lastName : String
  email : String
  phone : String
  date : String
  time : String
deriving Repr, DecidableEq

/-- The request body of `POST /api/v1/reservation/send` as destructured by
the controller: each of the six properties is either absent in the JSON
(JavaScript `undefined`, here `none`) or a string. -/
structure ReqBody where
  firstName : Option String
  lastName : Option String
  email : Option String
  phone : Option String
  date : Option String
  time : Option String
deriving Repr, DecidableEq

/-- JavaScript falsiness of a destructured body field, as tested by
`!firstName` in the controller: an absent property and the empty string
are falsy, every other string is truthy. -/
def falsy : Option String → Bool
  | none => true
  | some s => s = ""

/-- The controller's presence check
`!firstName || !lastName || !email || !phone || !date || !time`. -/
def missingField (b : ReqBody) : Bool :=
  falsy b.firstName || falsy b.lastName || falsy b.email ||
  falsy b.phone || falsy b.date || falsy b.time

/-- The record the controller hands to `Reservation.create`: the
destructured body values (an absent field destructures to `undefined`;
here it becomes `""`, which only matters on paths the presence check has
already rejected). -/
def reservationOf (b : ReqBody) : Reservation :=
  { firstName := b.firstName.getD ""
    lastName := b.lastName.getD ""
    email := b.email.getD ""
    phone := b.phone.getD ""
    date := b.date.getD ""
    time := b.time.getD "" }

/-- Modelled from the spec: the `isEmail` predicate of the third-party
`validator` library invoked by `reservationSchema` (the library's source
is not part of this repository).  The spec requires only "valid email
syntax": exactly one `@` splitting the string into a non-empty local
part and a domain that contains an interior dot. -/
def isEmail (s : String) : Bool :=
  let cs := s.toList
  let lp := cs.takeWhile (fun c => c ≠ '@')
  let dp := (cs.dropWhile (fun c => c ≠ '@')).drop 1
  cs.count '@' = 1 && lp ≠ [] && dp ≠ [] && dp.contains '.' &&
    dp.head? ≠ some '.' && dp.getLast? ≠ some '.'

/-- Mongoose validation of `reservationSchema`: every field is
`required` (an empty string fails `required` for mongoose string
paths), `firstName` and `lastName` have `minLength 3` and
`maxLength 30`, `email` must satisfy the `isEmail` validator (with the
schema's own message `"Provide a valid email"`), and `phone` has
`minLength 10` and `maxLength 10`.  Returns the message of the first
violated path, or `none` when the record is valid; the exact wording of
the mongoose-internal length messages is modelled from the spec. -/
def validateReservation (r : Reservation) : Option String :=
  if r.firstName.length < 3 ∨ 30 < r.firstName.length then
    some "firstName fails its length constraint (3 to 30)"
  else if r.lastName.length < 3 ∨ 30 < r.lastName.length then
    some "lastName fails its length constraint (3 to 30)"
  else if ¬ isEmail r.email then
    some "Provide a valid email"
  else if r.phone.length ≠ 10 then
    some "phone fails its length constraint (exactly 10)"
  else if r.date = "" then
    some "Path date is required."
  else if r.time = "" then
    some "Path time is required."
  else
    none

/-- The outcome of `Reservation.create`: a mongoose `ValidationError`
carrying a message, an infrastructure failure carrying the driver's
internal diagnostic text, or success. -/
inductive CreateOutcome where
  | validationError (msg : String)
  | infraError (diag : String)
  | created (db : List Reservation)
deriving Repr, DecidableEq

/-- `Reservation.create` against the persistence layer: mongoose first
runs schema validation, then attempts the write.  `infra = some diag`
represents an infrastructure failure (storage unreachable, write
rejected) whose internal diagnostic is `diag`; `infra = none` means the
write succeeds, appending the record to the stored collection. -/
def reservationCreate (infra : Option String) (db : List Reservation)
    (r : Reservation) : CreateOutcome :=
  match validateReservation r with
  | some msg => .validationError msg
  | none =>
    match infra with
    | some diag => .infraError diag
    | none => .created (db ++ [r])

/-- Modelled from the spec: the generic message reported for an
unexpected persistence failure.  `PROJECT_EXPLANATION.md` specifies
"Error caught → errorMiddleware(500) → Generic error message sent";
the message is a fixed string, independent of the underlying failure. -/
def dbFailureMessage : String := "Internal Server Error"

/-- The `sendReservation` controller of `controller/reservation.js`
(snippet in `PROJECT_EXPLANATION.md`) together with its error routing
from the same document's Error Scenarios section: a missing field is
forwarded as `ErrorHandler("Please fill full reservation form!", 400)`;
a mongoose `ValidationError` is caught and forwarded as
`ErrorHandler(message, 400)`; modelled from the spec, any other
persistence failure is caught and forwarded generically with status 500
and `dbFailureMessage`.  Every forwarded error reaches
`errorMiddleware`.  The result pairs the HTTP response with the stored
collection after the call. -/
def sendReservation (body : ReqBody) (infra : Option String)
    (db : List Reservation) : HttpResponse × List Reservation :=
  if missingField body then
    (errorMiddleware (ErrorHandler "Please fill full reservation form!" 400), db)
  else
    match reservationCreate infra db (reservationOf body) with
    | .validationError msg => (errorMiddleware (ErrorHandler msg 400), db)
    | .infraError _ => (errorMiddleware (ErrorHandler dbFailureMessage 500), db)
    | .created db2 =>
      ({ status := 200, success := true, message := "Reservation Sent Successfully!" },
       db2)

end FoodyFresh

namespace FoodyFresh

/-! ## Claims about the error boundary -/

/-- C4. Every error reaching the HTTP boundary is normalized by
`errorMiddleware` into the single shape with `success = false` and a
message string; the response is fully determined by the error's
`message` and `StatusCode`, so no stack trace or other internal state
(`stack`) ever crosses the boundary. -/
theorem claim4_error_normalization :
    (∀ err : JsError, (errorMiddleware err).success = false) ∧
    (∀ e₁ e₂ : JsError, e₁.message = e₂.message → e₁.StatusCode = e₂.StatusCode →
      errorMiddleware e₁ = errorMiddleware e₂) := by
  constructor
  · intro err
    rfl
  · intro e₁ e₂ hm hs
    simp [errorMiddleware, hm, hs]

/-- Witness for C4 at concrete errors: the middleware output has
`success = false`, and two errors differing only in their internal
`stack` field produce identical responses. -/
theorem claim4_error_normalization_witness :
    (errorMiddleware ⟨"boom", some 400, "at file.js:3"⟩).success = false ∧
    errorMiddleware ⟨"boom", some 400, "at file.js:3"⟩ =
      errorMiddleware ⟨"boom", some 400, "other internal trace"⟩ :=
  ⟨claim4_error_normalization.1 ⟨"boom", some 400, "at file.js:3"⟩,
   claim4_error_normalization.2 ⟨"boom", some 400, "at file.js:3"⟩
     ⟨"boom", some 400, "other internal trace"⟩ rfl rfl⟩

/-- C10 counterexample. The claim says the response status equals the
error's `StatusCode` whenever one is set.  The error below has its
`StatusCode` set (to `0`), yet `err.StatusCode || 500` treats `0` as
falsy, so the middleware responds with status `500`, not `0`. -/
theorem claim10_status_zero_counterexample :
    (⟨"boom", some 0, ""⟩ : JsError).StatusCode = some 0 ∧
    (errorMiddleware ⟨"boom", some 0, ""⟩).status ≠ 0 := by
  exact ⟨rfl, by decide⟩

/-- C10 (amended). For every error passed to `errorMiddleware`, the
response status equals the error's `StatusCode` when one is set to a
nonzero value, and is `500` when it is unset or set to `0` (JavaScript
truthiness); the response message equals the error's own message when
non-empty and the fixed default `"Internal Serve Error!"` otherwise;
hence the message of every failure response is non-empty. -/
theorem claim10_middleware_defaults (err : JsError) :
    ((err.StatusCode = none → (errorMiddleware err).status = 500) ∧
     (err.StatusCode = some 0 → (errorMiddleware err).status = 500) ∧
     (∀ c : Nat, err.StatusCode = some c → c ≠ 0 →
        (errorMiddleware err).status = c)) ∧
    ((err.message = "" → (errorMiddleware err).message = "Internal Serve Error!") ∧
     (err.message ≠ "" → (errorMiddleware err).message = err.message)) ∧
    (errorMiddleware err).message ≠ "" := by
  refine ⟨⟨?_, ?_, ?_⟩, ⟨?_, ?_⟩, ?_⟩
  · intro h
    simp [errorMiddleware, h]
  · intro h
    simp [errorMiddleware, h]
  · intro c h hc
    simp [errorMiddleware, h, hc]
  · intro h
    simp [errorMiddleware, h]
  · intro h
    simp [errorMiddleware, h]
  · by_cases h : err.message = ""
    · simp [errorMiddleware, h]
    · simp [errorMiddleware, h]

/-- Witness for C10 at a concrete error: status taken from the set
nonzero `StatusCode`, message taken from the non-empty error message. -/
theorem claim10_middleware_defaults_witness :
    (errorMiddleware ⟨"no such route", some 404, "trace"⟩).status = 404 ∧
    (errorMiddleware ⟨"no such route", some 404, "trace"⟩).message = "no such route" :=
  ⟨(claim10_middleware_defaults ⟨"no such route", some 404, "trace"⟩).1.2.2 404 rfl
     (by decide),
   (claim10_middleware_defaults ⟨"no such route", some 404, "trace"⟩).2.1.2
     (by decide)⟩

/-! ## Claims about the reservation intake pipeline -/

/-- A well-formed submission passes the presence check and the schema
check, so `sendReservation` either persists the record (when the
infrastructure is healthy) or reports the generic 500 failure (when it
is not).  Shared helper for the pipeline claims. -/
theorem sendReservation_wellFormed (f l e p d t : String) (infra : Option String)
    (db : List Reservation)
    (hf1 : 3 ≤ f.length) (hf2 : f.length ≤ 30)
    (hl1 : 3 ≤ l.length) (hl2 : l.length ≤ 30)
    (he : isEmail e = true) (hp : p.length = 10) (hd : d ≠ "") (ht : t ≠ "") :
    sendReservation ⟨some f, some l, some e, some p, some d, some t⟩ infra db =
      match infra with
      | some _ => ({ status := 500, success := false, message := dbFailureMessage }, db)
      | none =>
        ({ status := 200, success := true, message := "Reservation Sent Successfully!" },
         db ++ [⟨f, l, e, p, d, t⟩]) := by
  have hf0 : f ≠ "" := fun h => absurd (h ▸ hf1) (by decide)
  have hl0 : l ≠ "" := fun h => absurd (h ▸ hl1) (by decide)
  have he0 : e ≠ "" := fun h => absurd (h ▸ he) (by decide)
  have hp0 : p ≠ "" := fun h => absurd (h ▸ hp) (by decide)
  have hmiss : missingField ⟨some f, some l, some e, some p, some d, some t⟩ = false := by
    simp [missingField, falsy, hf0, hl0, he0, hp0, hd, ht]
  have c1 : ¬(f.length < 3 ∨ 30 < f.length) := by omega
  have c2 : ¬(l.length < 3 ∨ 30 < l.length) := by omega
  have hval : validateReservation ⟨f, l, e, p, d, t⟩ = none := by
    simp [validateReservation, c1, c2, he, hp, hd, ht]
  cases infra with
  | none =>
    simp [sendReservation, hmiss, reservationCreate, reservationOf, hval]
  | some diag =>
    simp [sendReservation, hmiss, reservationCreate, reservationOf, hval,
      errorMiddleware, ErrorHandler, dbFailureMessage]

/-- C1. Whenever any of the six fields is absent or empty in the
submitted body, `sendReservation` fails with HTTP 400 and the fixed
message `"Please fill full reservation form!"`, and the stored
collection is unchanged — no record is persisted. -/
theorem claim1_missing_field_rejected (body : ReqBody) (infra : Option String)
    (db : List Reservation) (h : missingField body = true) :
    sendReservation body infra db =
      ({ status := 400, success := false,
         message := "Please fill full reservation form!" }, db) := by
  simp [sendReservation, h, errorMiddleware, ErrorHandler]

/-- Witness for C1: a submission with an absent `email` and an empty
`time` is rejected with the fixed 400 response and persists nothing. -/
theorem claim1_missing_field_rejected_witness :
    sendReservation ⟨some "John", some "Smith", none, some "1234567890",
        some "2025-01-01", some ""⟩ none [] =
      ({ status := 400, success := false,
         message := "Please fill full reservation form!" }, []) :=
  claim1_missing_field_rejected
    ⟨some "John", some "Smith", none, some "1234567890", some "2025-01-01", some ""⟩
    none [] (by decide)

/-- C2. A well-formed submission (all six fields present, names of
length 3 to 30, syntactically valid email, phone of exactly 10
characters) returns HTTP 200 with body `success = true` and a message,
and appends exactly one record matching the submitted values to the
stored collection. -/
theorem claim2_wellformed_persists (f l e p d t : String) (db : List Reservation)
    (hf1 : 3 ≤ f.length) (hf2 : f.length ≤ 30)
    (hl1 : 3 ≤ l.length) (hl2 : l.length ≤ 30)
    (he : isEmail e = true) (hp : p.length = 10) (hd : d ≠ "") (ht : t ≠ "") :
    sendReservation ⟨some f, some l, some e, some p, some d, some t⟩ none db =
      ({ status := 200, success := true, message := "Reservation Sent Successfully!" },
       db ++ [⟨f, l, e, p, d, t⟩]) ∧
    (db ++ [(⟨f, l, e, p, d, t⟩ : Reservation)]).count ⟨f, l, e, p, d, t⟩ =
      db.count ⟨f, l, e, p, d, t⟩ + 1 := by
  refine ⟨sendReservation_wellFormed f l e p d t none db hf1 hf2 hl1 hl2 he hp hd ht, ?_⟩
  simp [List.count_append]

/-- Witness for C2: the spec's example submission succeeds and persists
exactly that record. -/
theorem claim2_wellformed_persists_witness :
    sendReservation ⟨some "John", some "Smith", some "john@example.com",
        some "1234567890", some "2025-01-01", some "19:00"⟩ none [] =
      ({ status := 200, success := true, message := "Reservation Sent Successfully!" },
       [⟨"John", "Smith", "john@example.com", "1234567890", "2025-01-01", "19:00"⟩]) :=
  (claim2_wellformed_persists "John" "Smith" "john@example.com" "1234567890"
    "2025-01-01" "19:00" [] (by decide) (by decide) (by decide) (by decide)
    (by decide) (by decide) (by decide) (by decide)).1

/-- C3. A submission with all six fields present but violating a schema
constraint fails with a 400 response of the same externally visible
shape as the presence check — `success = false` with a non-empty
message — and the stored collection is unchanged. -/
theorem claim3_schema_violation_rejected (f l e p d t : String) (infra : Option String)
    (db : List Reservation)
    (hf : f ≠ "") (hl : l ≠ "") (he : e ≠ "") (hp : p ≠ "") (hd : d ≠ "") (ht : t ≠ "")
    (hbad : validateReservation ⟨f, l, e, p, d, t⟩ ≠ none) :
    ∃ m : String, m ≠ "" ∧
      sendReservation ⟨some f, some l, some e, some p, some d, some t⟩ infra db =
        ({ status := 400, success := false, message := m }, db) := by
  have hmiss : missingField ⟨some f, some l, some e, some p, some d, some t⟩ = false := by
    simp [missingField, falsy, hf, hl, he, hp, hd, ht]
  cases hv : validateReservation ⟨f, l, e, p, d, t⟩ with
  | none => exact absurd hv hbad
  | some msg =>
    refine ⟨if msg = "" then "Internal Serve Error!" else msg, ?_, ?_⟩
    · by_cases hm : msg = "" <;> simp [hm]
    · simp [sendReservation, hmiss, reservationCreate, reservationOf, hv,
        errorMiddleware, ErrorHandler]

/-- Witness for C3: a submission with a 9-character phone is rejected
with a 400 response and persists nothing. -/
theorem claim3_schema_violation_rejected_witness :
    ∃ m : String, m ≠ "" ∧
      sendReservation ⟨some "John", some "Smith", some "john@example.com",
          some "123456789", some "2025-01-01", some "19:00"⟩ none [] =
        ({ status := 400, success := false, message := m }, []) :=
  claim3_schema_violation_rejected "John" "Smith" "john@example.com" "123456789"
    "2025-01-01" "19:00" none [] (by decide) (by decide) (by decide) (by decide)
    (by decide) (by decide) (by decide)

/-- C5. When the persistence write fails for infrastructure reasons, a
well-formed submission is answered with HTTP 500 and the fixed generic
message: the response is the same for every internal diagnostic `diag`,
so no internal detail of the failure is ever exposed, and no record is
persisted. -/
theorem claim5_infra_failure_generic (f l e p d t diag : String) (db : List Reservation)
    (hf1 : 3 ≤ f.length) (hf2 : f.length ≤ 30)
    (hl1 : 3 ≤ l.length) (hl2 : l.length ≤ 30)
    (he : isEmail e = true) (hp : p.length = 10) (hd : d ≠ "") (ht : t ≠ "") :
    sendReservation ⟨some f, some l, some e, some p, some d, some t⟩ (some diag) db =
      ({ status := 500, success := false, message := dbFailureMessage }, db) :=
  sendReservation_wellFormed f l e p d t (some diag) db hf1 hf2 hl1 hl2 he hp hd ht

/-- Witness for C5: a storage outage with a detailed internal
diagnostic is reported as the bare generic 500 response. -/
theorem claim5_infra_failure_generic_witness :
    sendReservation ⟨some "John", some "Smith", some "john@example.com",
        some "1234567890", some "2025-01-01", some "19:00"⟩
      (some "ECONNREFUSED mongodb cluster0 at 10.0.0.7:27017") [] =
      ({ status := 500, success := false, message := dbFailureMessage }, []) :=
  claim5_infra_failure_generic "John" "Smith" "john@example.com" "1234567890"
    "2025-01-01" "19:00" "ECONNREFUSED mongodb cluster0 at 10.0.0.7:27017" []
    (by decide) (by decide) (by decide) (by decide) (by decide) (by decide)
    (by decide) (by decide)

/-- C6. Submitting the same well-formed payload twice in succession
succeeds both times and leaves two independent records matching the
payload: there is no de-duplication. -/
theorem claim6_no_deduplication (f l e p d t : String) (db : List Reservation)
    (hf1 : 3 ≤ f.length) (hf2 : f.length ≤ 30)
    (hl1 : 3 ≤ l.length) (hl2 : l.length ≤ 30)
    (he : isEmail e = true) (hp : p.length = 10) (hd : d ≠ "") (ht : t ≠ "") :
    (sendReservation ⟨some f, some l, some e, some p, some d, some t⟩ none db).1.success
        = true ∧
    (sendReservation ⟨some f, some l, some e, some p, some d, some t⟩ none
        (sendReservation ⟨some f, some l, some e, some p, some d, some t⟩ none db).2).1.success
        = true ∧
    (sendReservation ⟨some f, some l, some e, some p, some d, some t⟩ none
        (sendReservation ⟨some f, some l, some e, some p, some d, some t⟩ none db).2).2
      = db ++ [⟨f, l, e, p, d, t⟩, ⟨f, l, e, p, d, t⟩] ∧
    (db ++ [(⟨f, l, e, p, d, t⟩ : Reservation), ⟨f, l, e, p, d, t⟩]).count ⟨f, l, e, p, d, t⟩
      = db.count ⟨f, l, e, p, d, t⟩ + 2 := by
  have h1 := sendReservation_wellFormed f l e p d t none db hf1 hf2 hl1 hl2 he hp hd ht
  have h2 := sendReservation_wellFormed f l e p d t none (db ++ [⟨f, l, e, p, d, t⟩])
    hf1 hf2 hl1 hl2 he hp hd ht
  refine ⟨by rw [h1], ?_, ?_, ?_⟩
  · rw [h1]
    simp only []
    rw [h2]
  · rw [h1]
    simp only []
    rw [h2]
    simp
  · simp [List.count_append]

/-- Witness for C6: submitting the spec's example payload twice leaves
exactly those two records. -/
theorem claim6_no_deduplication_witness :
    (sendReservation ⟨some "John", some "Smith", some "john@example.com",
        some "1234567890", some "2025-01-01", some "19:00"⟩ none
      (sendReservation ⟨some "John", some "Smith", some "john@example.com",
          some "1234567890", some "2025-01-01", some "19:00"⟩ none []).2).2
      = [⟨"John", "Smith", "john@example.com", "1234567890", "2025-01-01", "19:00"⟩,
         ⟨"John", "Smith", "john@example.com", "1234567890", "2025-01-01", "19:00"⟩] :=
  (claim6_no_deduplication "John" "Smith" "john@example.com" "1234567890"
    "2025-01-01" "19:00" [] (by decide) (by decide) (by decide) (by decide)
    (by decide) (by decide) (by decide) (by decide)).2.2.1

/-! ## The reservation form client (`components/Reservation.jsx`) -/

/-- The six pieces of local editable state held by the form component
(`useState` per field). -/
structure FormFields where
  firstName : String
  lastName : String
  email : String
  date : String
  time : String
  phone : String
deriving Repr, DecidableEq

/-- The view currently shown by the router: the home page hosting the
form, or the `/success` confirmation page. -/
inductive View where
  | home
  | success
deriving Repr, DecidableEq

/-- A toast notification emitted through `react-hot-toast`. -/
inductive Toast where
  | ok (msg : String)
  | fail (msg : String)
deriving Repr, DecidableEq

/-- The client state visible to `handleReservation`: the field states,
the current view, and the toasts displayed so far. -/
structure ClientState where
  fields : FormFields
  view : View
  toasts : List Toast
deriving Repr, DecidableEq

/-- The outcome of the axios POST as observed by the handler's
`try`/`catch`: on resolution, `data.message` from the 200 body; on
rejection, `error.response?.data?.message` (absent when the server sent
no body, e.g. a network failure) and `error.message`, axios's own
generic description of the failure. -/
inductive AxiosOutcome where
  | resolved (dataMessage : String)
  | rejected (serverMessage : Option String) (axiosMessage : String)
deriving Repr, DecidableEq

/-- The message selected by `toast.error` on the failure path:
`error.response?.data?.message || error.message` — the server-provided
message when present and non-empty (JavaScript truthiness), otherwise
axios's generic message. -/
def errorToastMessage (serverMessage : Option String) (axiosMessage : String) : String :=
  match serverMessage with
  | some m => if m = "" then axiosMessage else m
  | none => axiosMessage

/-- `handleReservation` from `components/Reservation.jsx`, after the
axios call settles.  Success: `toast.success(data.message)`, every field
setter is called with `""`, and `navigate("/success")`.  Failure:
`toast.error(error.response?.data?.message || error.message)`; no setter
is called and no navigation happens. -/
def handleReservation (s : ClientState) (o : AxiosOutcome) : ClientState :=
  match o with
  | .resolved msg =>
    { fields := ⟨"", "", "", "", "", ""⟩
      view := .success
      toasts := s.toasts ++ [.ok msg] }
  | .rejected serverMsg axiosMsg =>
    { s with toasts := s.toasts ++ [.fail (errorToastMessage serverMsg axiosMsg)] }

/-- C9. On a failed submission the client appends an error toast
carrying the server-provided message when one is present and non-empty,
and axios's generic message otherwise, while the six field states and
the view are unchanged; on a successful submission it appends a success
toast with the response message, clears all six fields, and transitions
to the confirmation view. -/
theorem claim9_client_submission_effects (s : ClientState) :
    (∀ (m am : String), m ≠ "" →
      handleReservation s (.rejected (some m) am) =
        { s with toasts := s.toasts ++ [.fail m] }) ∧
    (∀ am : String,
      handleReservation s (.rejected none am) =
        { s with toasts := s.toasts ++ [.fail am] }) ∧
    (∀ o : AxiosOutcome, ∀ sm am, o = .rejected sm am →
      (handleReservation s o).fields = s.fields ∧ (handleReservation s o).view = s.view) ∧
    (∀ msg : String,
      handleReservation s (.resolved msg) =
        ⟨⟨"", "", "", "", "", ""⟩, .success, s.toasts ++ [.ok msg]⟩) := by
  refine ⟨?_, ?_, ?_, ?_⟩
  · intro m am hm
    simp [handleReservation, errorToastMessage, hm]
  · intro am
    simp [handleReservation, errorToastMessage]
  · intro o sm am ho
    subst ho
    exact ⟨rfl, rfl⟩
  · intro msg
    rfl

/-- Witness for C9 at a concrete client state: a rejected call with a
server message appends exactly that error toast, and a resolved call
clears the fields and moves to the confirmation view. -/
theorem claim9_client_submission_effects_witness :
    handleReservation
        ⟨⟨"John", "Smith", "john@example.com", "2025-01-01", "19:00", "1234567890"⟩,
         .home, []⟩
        (.rejected (some "Please fill full reservation form!") "Request failed") =
      ⟨⟨"John", "Smith", "john@example.com", "2025-01-01", "19:00", "1234567890"⟩,
       .home, [.fail "Please fill full reservation form!"]⟩ ∧
    handleReservation
        ⟨⟨"John", "Smith", "john@example.com", "2025-01-01", "19:00", "1234567890"⟩,
         .home, []⟩
        (.resolved "Reservation Sent Successfully!") =
      ⟨⟨"", "", "", "", "", ""⟩, .success, [.ok "Reservation Sent Successfully!"]⟩ :=
  ⟨(claim9_client_submission_effects
      ⟨⟨"John", "Smith", "john@example.com", "2025-01-01", "19:00", "1234567890"⟩,
       .home, []⟩).1 "Please fill full reservation form!" "Request failed" (by decide),
   (claim9_client_submission_effects
      ⟨⟨"John", "Smith", "john@example.com", "2025-01-01", "19:00", "1234567890"⟩,
       .home, []⟩).2.2.2 "Reservation Sent Successfully!"⟩

/-! ## The confirmation view countdown (`Pages/Success.jsx`) -/

/-- The state of the confirmation view: the `countdown` state variable
(a JavaScript number, so modelled as an integer), whether the interval
registered by the mount effect is still active (`clearInterval` not yet
called), and how many times `navigate("/")` has fired from the timer. -/
structure SuccessState where
  countdown : Int
  timerActive : Bool
  navigations : Nat
deriving Repr, DecidableEq

/-- The state on entry to the confirmation view:
`useState(10)` and the interval just registered by the mount effect. -/
def successInit : SuccessState :=
  { countdown := 10, timerActive := true, navigations := 0 }

/-- One one-second firing of the interval callback of `Success.jsx`:
if the interval is still registered, the updater runs — when the
previous count is `1` it calls `clearInterval` and `navigate("/")` —
and the count becomes the previous count minus one.  A cleared interval
never fires, so the state is unchanged. -/
def tick (s : SuccessState) : SuccessState :=
  if s.timerActive then
    if s.countdown = 1 then
      { countdown := s.countdown - 1, timerActive := false,
        navigations := s.navigations + 1 }
    else
      { s with countdown := s.countdown - 1 }
  else s

/-- The effect cleanup of `Success.jsx`, run when the component is torn
down (the user navigates away via the explicit link, or the view
unmounts for any other reason): `clearInterval(timeoutId)`. -/
def unmountCleanup (s : SuccessState) : SuccessState :=
  { s with timerActive := false }

/-- C7. The countdown starts at 10; each of the first 10 ticks
decrements it by one; no automatic navigation fires before the 10th
tick; and the 10th tick triggers exactly one navigation home — after it
the interval is cleared, so the navigation count stays exactly 1 no
matter how much more time passes. -/
theorem claim7_countdown_redirects (k m : Nat) (hk : k ≤ 10) :
    (tick^[k] successInit).countdown = 10 - (k : Int) ∧
    (k < 10 → (tick^[k] successInit).navigations = 0) ∧
    (tick^[m] (tick^[10] successInit)).navigations = 1 := by
  have h10 : tick^[10] successInit = ⟨0, false, 1⟩ := by decide
  have hfix : tick (⟨0, false, 1⟩ : SuccessState) = ⟨0, false, 1⟩ := by decide
  refine ⟨?_, ?_, ?_⟩
  · interval_cases k <;> decide
  · intro hk10
    interval_cases k <;> simp_all <;> decide
  · rw [h10, Function.iterate_fixed hfix]

/-- Witness for C7: after 3 ticks the countdown reads 7 and no
navigation has fired; after the 10th tick (and 5 further seconds) the
view has navigated home exactly once. -/
theorem claim7_countdown_redirects_witness :
    (tick^[3] successInit).countdown = 7 ∧
    (tick^[3] successInit).navigations = 0 ∧
    (tick^[5] (tick^[10] successInit)).navigations = 1 :=
  ⟨(claim7_countdown_redirects 3 5 (by decide)).1,
   (claim7_countdown_redirects 3 5 (by decide)).2.1 (by decide),
   (claim7_countdown_redirects 3 5 (by decide)).2.2⟩

/-- C8. The cleanup runs on every exit path from the confirmation view
(explicit user navigation or any other unmount) and clears the
interval: a cleaned-up state is a fixed point of `tick`, so no timer
callback ever acts after teardown, and when the user leaves during the
countdown (before the 10th tick) the timer contributes no navigation at
all afterwards — the user's own navigation is never duplicated. -/
theorem claim8_cleanup_cancels_timer (s : SuccessState) (k m : Nat) (hk : k < 10) :
    tick (unmountCleanup s) = unmountCleanup s ∧
    (tick^[m] (unmountCleanup (tick^[k] successInit))).navigations = 0 := by
  constructor
  · simp [tick, unmountCleanup]
  · have hfix : tick (unmountCleanup (tick^[k] successInit))
        = unmountCleanup (tick^[k] successInit) := by
      simp [tick, unmountCleanup]
    rw [Function.iterate_fixed hfix]
    show (tick^[k] successInit).navigations = 0
    interval_cases k <;> decide

/-- Witness for C8: unmounting after 4 ticks freezes the state, and 20
further seconds produce no navigation from the timer. -/
theorem claim8_cleanup_cancels_timer_witness :
    tick (unmountCleanup (tick^[4] successInit)) = unmountCleanup (tick^[4] successInit) ∧
    (tick^[20] (unmountCleanup (tick^[4] successInit))).navigations = 0 :=
  ⟨(claim8_cleanup_cancels_timer (tick^[4] successInit) 4 20 (by decide)).1,
   (claim8_cleanup_cancels_timer (tick^[4] successInit) 4 20 (by decide)).2⟩

end FoodyFresh
